import Mathlib

/-!
# terraform-provider-mailosaur: the provider and the `mailosaur_server` resource

A shallow embedding of `internal/provider/provider.go` and
`internal/provider/mailosaur_server_resource.go`.

* A Go `*Response` argument that the handlers mutate is an explicit in/out value.
* A Go multi-value return `(v, err)` is a pair whose second component is
  `none` for `err == nil` and `some msg` for an error whose `Error()` is `msg`.
* The Mailosaur client is an external collaborator: it is a record of functions
  over an abstract remote state `σ`.  `traced` wraps such a record so that each
  call is appended to a log, which is how the number and order of remote calls
  is observed.  The handlers take `r.provider.client.Servers` as that record, so
  the client pointer is not nil.
* `Get` on a config, plan or state may return diagnostics; `State.Set` with the
  resource's own data struct returns none.
-/

namespace Mailosaur

/-! ## Framework values -/

/-- The framework's `types.String`: a value together with its null/unknown flags.
A composite literal `types.String{Value: v}` leaves both flags `false`. -/
structure TfString where
  Unknown : Bool := false
  Null : Bool := false
  Value : String := ""
deriving DecidableEq, Repr, Inhabited

/-- Severity of a diagnostic. -/
inductive Severity where
  | Error
  | Warning
deriving DecidableEq, Repr

/-- One diagnostic of the framework: severity, summary, detail.  The diagnostics
the provider adds with `AddError` carry no attribute path, and none is modelled;
two diagnostics are the same when these three fields agree. -/
structure Diagnostic where
  severity : Severity
  summary : String
  detail : String
deriving DecidableEq, Repr

/-- The framework's `diag.Diagnostics`, a slice of diagnostics. -/
abbrev Diagnostics := List Diagnostic

/-- `Diagnostics.HasError`: some diagnostic has error severity. -/
def Diagnostics.HasError (diags : Diagnostics) : Bool :=
  diags.any (fun d => d.severity == Severity.Error)

/-- Appending one diagnostic: a diagnostic already contained is skipped. -/
def Diagnostics.push (diags : Diagnostics) (d : Diagnostic) : Diagnostics :=
  if d ∈ diags then diags else diags ++ [d]

/-- `Diagnostics.Append`: appends each diagnostic in turn, skipping duplicates. -/
def Diagnostics.Append (diags : Diagnostics) (new : Diagnostics) : Diagnostics :=
  new.foldl Diagnostics.push diags

/-- `Diagnostics.AddError`: appends an error diagnostic. -/
def Diagnostics.AddError (diags : Diagnostics) (summary detail : String) : Diagnostics :=
  Diagnostics.Append diags [⟨Severity.Error, summary, detail⟩]

/-! ## The remote client -/

/-- The fields of `mailosaur.Server` that the provider reads or writes. -/
structure Server where
  Id : String := ""
  Name : String := ""
deriving DecidableEq, Repr, Inhabited

/-- The type `mailosaur.ServerCreateOptions`. -/
structure ServerCreateOptions where
  Name : String := ""
deriving DecidableEq, Repr

/-- The six methods of `client.Servers` the provider calls, over a remote state `σ`.
Each takes the remote state and returns its Go results with the next state. -/
structure ServersService (σ : Type) where
  Create : ServerCreateOptions → σ → (Server × Option String) × σ
  Get : String → σ → (Server × Option String) × σ
  Update : String → Server → σ → (Server × Option String) × σ
  Delete : String → σ → Option String × σ
  GetPassword : String → σ → (String × Option String) × σ
  GenerateEmailAddress : String → σ → String × σ

/-- A call on the remote client, with its arguments. -/
inductive Call where
  | CreateServer (options : ServerCreateOptions)
  | GetServer (id : String)
  | UpdateServer (id : String) (server : Server)
  | DeleteServer (id : String)
  | GetPassword (id : String)
  | GenerateEmailAddress (id : String)
deriving DecidableEq, Repr

/-- A logged call together with the error it returned, if any. -/
structure Event where
  call : Call
  err : Option String
deriving DecidableEq, Repr

/-- The same client, recording every call and its error in a log kept beside
the remote state. -/
def traced {σ : Type} (c : ServersService σ) : ServersService (σ × List Event) where
  Create options s :=
    let r := c.Create options s.1
    (r.1, (r.2, s.2 ++ [⟨Call.CreateServer options, r.1.2⟩]))
  Get id s :=
    let r := c.Get id s.1
    (r.1, (r.2, s.2 ++ [⟨Call.GetServer id, r.1.2⟩]))
  Update id server s :=
    let r := c.Update id server s.1
    (r.1, (r.2, s.2 ++ [⟨Call.UpdateServer id server, r.1.2⟩]))
  Delete id s :=
    let r := c.Delete id s.1
    (r.1, (r.2, s.2 ++ [⟨Call.DeleteServer id, r.1⟩]))
  GetPassword id s :=
    let r := c.GetPassword id s.1
    (r.1, (r.2, s.2 ++ [⟨Call.GetPassword id, r.1.2⟩]))
  GenerateEmailAddress id s :=
    let r := c.GenerateEmailAddress id s.1
    (r.1, (r.2, s.2 ++ [⟨Call.GenerateEmailAddress id, none⟩]))

/-! ## The resource -/

/-- The struct `mailosaurServerResourceData`. -/
structure mailosaurServerResourceData where
  Name : TfString := {}
  Id : TfString := {}
  Password : TfString := {}
  Email : TfString := {}
deriving DecidableEq, Repr, Inhabited

/-- A `tfsdk.Config`, `tfsdk.Plan` or `tfsdk.State` as the handlers read it: the
value `Get` decodes into the target struct and the diagnostics `Get` returns. -/
structure Source (α : Type) where
  value : α
  diags : Diagnostics := []

/-- The method `Get` of a config, plan or state. -/
def Source.Get {α : Type} (s : Source α) : α × Diagnostics := (s.value, s.diags)

/-- The `tfsdk.State` of a response: `none` is the null state. -/
structure State where
  Raw : Option mailosaurServerResourceData := none
deriving DecidableEq, Repr

/-- `State.Set` with a `mailosaurServerResourceData`: the struct matches the
schema of `GetSchema`, so the state is replaced and no diagnostic is returned. -/
def State.Set (_s : State) (data : mailosaurServerResourceData) : State × Diagnostics :=
  ({ Raw := some data }, [])

/-- The response of a resource handler: the state and the diagnostics. -/
structure ResourceResponse where
  State : State := {}
  Diagnostics : Diagnostics := []
deriving DecidableEq, Repr

abbrev CreateResourceResponse := ResourceResponse
abbrev ReadResourceResponse := ResourceResponse
abbrev UpdateResourceResponse := ResourceResponse
abbrev DeleteResourceResponse := ResourceResponse

/-- The type `tfsdk.CreateResourceRequest`. -/
structure CreateResourceRequest where
  Config : Source mailosaurServerResourceData

/-- The type `tfsdk.ReadResourceRequest`. -/
structure ReadResourceRequest where
  State : Source mailosaurServerResourceData

/-- The type `tfsdk.UpdateResourceRequest`. -/
structure UpdateResourceRequest where
  Plan : Source mailosaurServerResourceData

/-- The type `tfsdk.DeleteResourceRequest`. -/
structure DeleteResourceRequest where
  State : Source mailosaurServerResourceData

/-- `mailosaurServerResource.Create`; `Servers` is `r.provider.client.Servers`. -/
def mailosaurServerResource.Create {σ : Type} (Servers : ServersService σ)
    (req : CreateResourceRequest) (resp : CreateResourceResponse) (w : σ) :
    CreateResourceResponse × σ :=
  let data := req.Config.Get.1
  let diags := req.Config.Get.2
  let resp := { resp with Diagnostics := resp.Diagnostics.Append diags }
  if resp.Diagnostics.HasError then (resp, w) else
  let options : ServerCreateOptions := { Name := data.Name.Value }
  let r := Servers.Create options w
  let server := r.1.1
  let w := r.2
  match r.1.2 with
  | some err =>
    let detail := "Unable to create server, got error: " ++ err
    ({ resp with Diagnostics := resp.Diagnostics.AddError "Client Error" detail }, w)
  | none =>
  let data := { data with Name := { Value := server.Name } }
  let data := { data with Id := { Value := server.Id } }
  let r := Servers.GetPassword server.Id w
  let password := r.1.1
  let w := r.2
  let resp := match r.1.2 with
    | some err =>
      let detail := "Unable to read password of server, got error: " ++ err
      { resp with Diagnostics := resp.Diagnostics.AddError "Client Error" detail }
    | none => resp
  let data := { data with Password := { Value := password } }
  let r := Servers.GenerateEmailAddress server.Id w
  let email := r.1
  let w := r.2
  let data := { data with Email := { Value := email } }
  let set := resp.State.Set data
  ({ State := set.1, Diagnostics := resp.Diagnostics.Append set.2 }, w)

/-- `mailosaurServerResource.Read`; `Servers` is `r.provider.client.Servers`. -/
def mailosaurServerResource.Read {σ : Type} (Servers : ServersService σ)
    (req : ReadResourceRequest) (resp : ReadResourceResponse) (w : σ) :
    ReadResourceResponse × σ :=
  let data := req.State.Get.1
  let diags := req.State.Get.2
  let resp := { resp with Diagnostics := resp.Diagnostics.Append diags }
  if resp.Diagnostics.HasError then (resp, w) else
  let r := Servers.Get data.Id.Value w
  let server := r.1.1
  let w := r.2
  match r.1.2 with
  | some err =>
    let detail := "Unable to read server, got error: " ++ err
    ({ resp with Diagnostics := resp.Diagnostics.AddError "Client Error" detail }, w)
  | none =>
  let step :=
    if data.Password.Null then
      let r := Servers.GetPassword server.Id w
      let password := r.1.1
      let resp := match r.1.2 with
        | some err =>
          let detail := "Unable to read password of server, got error: " ++ err
          { resp with Diagnostics := resp.Diagnostics.AddError "Client Error" detail }
        | none => resp
      ({ data with Password := { Value := password } }, resp, r.2)
    else (data, resp, w)
  let data := step.1
  let resp := step.2.1
  let w := step.2.2
  let step :=
    if data.Email.Null then
      let r := Servers.GenerateEmailAddress server.Id w
      let email := r.1
      ({ data with Email := { Value := email } }, r.2)
    else (data, w)
  let data := step.1
  let w := step.2
  let data := { data with Name := { Value := server.Name } }
  let set := resp.State.Set data
  ({ State := set.1, Diagnostics := resp.Diagnostics.Append set.2 }, w)

/-- `mailosaurServerResource.Update`; `Servers` is `r.provider.client.Servers`. -/
def mailosaurServerResource.Update {σ : Type} (Servers : ServersService σ)
    (req : UpdateResourceRequest) (resp : UpdateResourceResponse) (w : σ) :
    UpdateResourceResponse × σ :=
  let data := req.Plan.Get.1
  let diags := req.Plan.Get.2
  let resp := { resp with Diagnostics := resp.Diagnostics.Append diags }
  if resp.Diagnostics.HasError then (resp, w) else
  let r := Servers.Get data.Id.Value w
  let retrievedServer := r.1.1
  let w := r.2
  match r.1.2 with
  | some err =>
    let detail := "Unable to read server, got error: " ++ err
    ({ resp with Diagnostics := resp.Diagnostics.AddError "Client Error" detail }, w)
  | none =>
  let retrievedServer := { retrievedServer with Name := data.Name.Value }
  let r := Servers.Update retrievedServer.Id retrievedServer w
  let w := r.2
  match r.1.2 with
  | some err =>
    let detail := "Unable to update server, got error: " ++ err
    ({ resp with Diagnostics := resp.Diagnostics.AddError "Client Error" detail }, w)
  | none =>
  let step :=
    if data.Password.Null then
      let r := Servers.GetPassword retrievedServer.Id w
      let password := r.1.1
      let resp := match r.1.2 with
        | some err =>
          let detail := "Unable to read password of server, got error: " ++ err
          { resp with Diagnostics := resp.Diagnostics.AddError "Client Error" detail }
        | none => resp
      ({ data with Password := { Value := password } }, resp, r.2)
    else (data, resp, w)
  let data := step.1
  let resp := step.2.1
  let w := step.2.2
  let step :=
    if data.Email.Null then
      let r := Servers.GenerateEmailAddress retrievedServer.Id w
      let email := r.1
      ({ data with Email := { Value := email } }, r.2)
    else (data, w)
  let data := step.1
  let w := step.2
  let set := resp.State.Set data
  ({ State := set.1, Diagnostics := resp.Diagnostics.Append set.2 }, w)

/-- `mailosaurServerResource.Delete`; `Servers` is `r.provider.client.Servers`. -/
def mailosaurServerResource.Delete {σ : Type} (Servers : ServersService σ)
    (req : DeleteResourceRequest) (resp : DeleteResourceResponse) (w : σ) :
    DeleteResourceResponse × σ :=
  let data := req.State.Get.1
  let diags := req.State.Get.2
  let resp := { resp with Diagnostics := resp.Diagnostics.Append diags }
  if resp.Diagnostics.HasError then (resp, w) else
  let r := Servers.Delete data.Id.Value w
  let w := r.2
  match r.1 with
  | some err =>
    let detail := "Unable to delete example, got error: " ++ err
    ({ resp with Diagnostics := resp.Diagnostics.AddError "Client Error" detail }, w)
  | none => (resp, w)

/-! ## The provider -/

/-- The struct `provider`; `κ` is the type of `mailosaur.MailosaurClient` and
`none` is the nil pointer. -/
structure provider (κ : Type) where
  client : Option κ := none
  configured : Bool := false
  version : String := ""

/-- The struct `providerData`. -/
structure providerData where
  ApiKey : TfString := {}
deriving DecidableEq, Repr

/-- The type `tfsdk.ConfigureProviderRequest`. -/
structure ConfigureProviderRequest where
  Config : Source providerData

/-- The type `tfsdk.ConfigureProviderResponse`. -/
structure ConfigureProviderResponse where
  Diagnostics : Diagnostics := []
deriving DecidableEq, Repr

/-- The process environment: a variable is unset (`none`) or has a value. -/
abbrev Environ := String → Option String

/-- `os.Getenv`: the value of the variable, empty when the variable is unset. -/
def Getenv (env : Environ) (key : String) : String := (env key).getD ""

/-- `provider.Configure`; `New` is `mailosaur.New` and `env` the process environment. -/
def provider.Configure {κ : Type} (New : String → κ) (env : Environ) (p : provider κ)
    (req : ConfigureProviderRequest) (resp : ConfigureProviderResponse) :
    provider κ × ConfigureProviderResponse :=
  let data := req.Config.Get.1
  let diags := req.Config.Get.2
  let resp : ConfigureProviderResponse := { Diagnostics := resp.Diagnostics.Append diags }
  if resp.Diagnostics.HasError then (p, resp) else
  let apiKey := if data.ApiKey.Null then Getenv env "MAILOSAUR_API_KEY" else data.ApiKey.Value
  let resp : ConfigureProviderResponse :=
    if apiKey == "" then
      { Diagnostics := resp.Diagnostics.AddError "Unable to find MAILOSAUR_API_KEY"
          "Api Key cannot be an empty string" }
    else resp
  let p := { p with client := some (New apiKey) }
  let p := { p with configured := true }
  (p, resp)

/-! ## A store model of the remote service -/

/-- Modelled from the spec: the remote Mailosaur service, which is not part of
the repository, as a store of server objects keyed by id; each entry is a server
with its password, and `fresh` numbers the ids handed out so far. -/
structure Store where
  entries : List (Server × String) := []
  fresh : Nat := 0
deriving DecidableEq, Repr

/-- The entry stored at an id, if any. -/
def Store.lookup (st : Store) (id : String) : Option (Server × String) :=
  st.entries.find? (fun e => e.1.Id == id)

/-- Modelled from the spec: the six remote operations `create(name) -> server`,
`get(id) -> server`, `update(id, server) -> server`, `delete(id) -> void`,
`getPassword(id) -> string` and `generateEmailAddress(id) -> string` over the
store; an operation on an id that is not stored fails. -/
def storeService : ServersService Store where
  Create options st :=
    let id := "srv" ++ toString st.fresh
    let server : Server := { Id := id, Name := options.Name }
    ((server, none),
      { entries := st.entries ++ [(server, "pw-" ++ id)], fresh := st.fresh + 1 })
  Get id st :=
    match st.lookup id with
    | some e => ((e.1, none), st)
    | none => (({}, some "Server not found"), st)
  Update id server st :=
    match st.lookup id with
    | some _ =>
      let stored : Server := { server with Id := id }
      ((stored, none),
        { st with entries :=
            st.entries.map (fun e => if e.1.Id == id then (stored, e.2) else e) })
    | none => (({}, some "Server not found"), st)
  Delete id st :=
    match st.lookup id with
    | some _ => (none, { st with entries := st.entries.filter (fun e => !(e.1.Id == id)) })
    | none => (some "Server not found", st)
  GetPassword id st :=
    match st.lookup id with
    | some e => ((e.2, none), st)
    | none => (("", some "Server not found"), st)
  GenerateEmailAddress id st := ("anything@" ++ id ++ ".mailosaur.net", st)

/-- The store service during an outage of the password endpoint: `GetPassword`
fails with Go's zero value, everything else works. -/
def passwordOutage : ServersService Store :=
  { storeService with
    GetPassword := fun _ st => (("", some "503 Service Unavailable"), st) }

/-- The store service during an outage of the password endpoint in which
`GetPassword` hands back the text of the error page together with its error. -/
def passwordOutageWithBody : ServersService Store :=
  { storeService with
    GetPassword := fun _ st => (("Service Unavailable", some "503 Service Unavailable"), st) }

/-- Blanks removed from both ends of a name. -/
def trimBlanks (s : String) : String :=
  String.mk ((s.data.dropWhile (fun ch => ch == ' ')).reverse.dropWhile
    (fun ch => ch == ' ')).reverse

/-- A store service that trims the blanks around a name on creation and whose
servers have no password set. -/
def trimmingService : ServersService Store :=
  { storeService with
    Create := fun options st =>
      storeService.Create { Name := trimBlanks options.Name } st
    GetPassword := fun _ st => (("", none), st) }

/-! ## Observing the log -/

/-- The kind of a remote call, its arguments forgotten. -/
inductive CallKind where
  | CreateServer
  | GetServer
  | UpdateServer
  | DeleteServer
  | GetPassword
  | GenerateEmailAddress
deriving DecidableEq, Repr

/-- The kind of a call. -/
def Call.kind : Call → CallKind
  | Call.CreateServer _ => CallKind.CreateServer
  | Call.GetServer _ => CallKind.GetServer
  | Call.UpdateServer _ _ => CallKind.UpdateServer
  | Call.DeleteServer _ => CallKind.DeleteServer
  | Call.GetPassword _ => CallKind.GetPassword
  | Call.GenerateEmailAddress _ => CallKind.GenerateEmailAddress

/-- How many calls of a kind a log holds. -/
def issued (k : CallKind) (log : List Event) : Nat :=
  log.countP (fun ev => ev.call.kind == k)

/-- The detail of the diagnostic the resource adds when a call of this kind
fails with the message `e`; `GenerateEmailAddress` returns no error. -/
def failureDetail (k : CallKind) (e : String) : String :=
  match k with
  | CallKind.CreateServer => "Unable to create server, got error: " ++ e
  | CallKind.GetServer => "Unable to read server, got error: " ++ e
  | CallKind.UpdateServer => "Unable to update server, got error: " ++ e
  | CallKind.DeleteServer => "Unable to delete example, got error: " ++ e
  | CallKind.GetPassword => "Unable to read password of server, got error: " ++ e
  | CallKind.GenerateEmailAddress => e

/-- The diagnostic the resource adds when a call of this kind fails with `e`. -/
def clientError (k : CallKind) (e : String) : Diagnostic :=
  ⟨Severity.Error, "Client Error", failureDetail k e⟩

/-! ## Concrete requests -/

/-- A create request for the configuration `name = "one"`; the computed
attributes are unknown in the configuration. -/
def createOne : CreateResourceRequest :=
  { Config := { value :=
      { Name := { Value := "one" }, Id := { Unknown := true },
        Password := { Unknown := true }, Email := { Unknown := true } } } }

/-- A create request whose configured name ends in a blank. -/
def createOneBlank : CreateResourceRequest :=
  { Config := { value :=
      { Name := { Value := "one " }, Id := { Unknown := true },
        Password := { Unknown := true }, Email := { Unknown := true } } } }

/-- The state the store service's first server is recorded with. -/
def stateOne : mailosaurServerResourceData :=
  { Name := { Value := "one" }, Id := { Value := "srv0" },
    Password := { Value := "pw-srv0" }, Email := { Value := "anything@srv0.mailosaur.net" } }

/-- The store after the first server was created with name `one`. -/
def storeOne : Store :=
  { entries := [({ Id := "srv0", Name := "one" }, "pw-srv0")], fresh := 1 }

/-- An update request: the plan keeps the state of the first server and renames
it to `two`. -/
def updateTwo : UpdateResourceRequest :=
  { Plan := { value := { stateOne with Name := { Value := "two" } } } }

/-- A read request for the given prior state. -/
def readOf (data : mailosaurServerResourceData) : ReadResourceRequest :=
  { State := { value := data } }

/-- The state of an imported server: only the id is known. -/
def importedOne : mailosaurServerResourceData :=
  { Name := { Null := true }, Id := { Value := "srv0" },
    Password := { Null := true }, Email := { Null := true } }

/-- The diagnostic Configure adds for an empty API key. -/
def missingApiKey : Diagnostic :=
  ⟨Severity.Error, "Unable to find MAILOSAUR_API_KEY", "Api Key cannot be an empty string"⟩

/-- An environment in which no variable is set. -/
def emptyEnviron : Environ := fun _ => none

/-- A provider configuration without the `api_key` attribute. -/
def configNoKey : ConfigureProviderRequest :=
  { Config := { value := { ApiKey := { Null := true } } } }

/-- A provider configuration whose decoding reports an error. -/
def configUndecodable : ConfigureProviderRequest :=
  { Config := { value := {}, diags := [⟨Severity.Error, "Value Conversion Error", ""⟩] } }

/-- A delete request for the given prior state. -/
def deleteOf (data : mailosaurServerResourceData) : DeleteResourceRequest :=
  { State := { value := data } }

/-- A store service whose create-server endpoint rejects every request. -/
def rejectingService : ServersService Store :=
  { storeService with
    Create := fun _ st => (({}, some "401 Unauthorized"), st) }

/-- Every failed call in the log of a run has its client error among the
diagnostics and was issued once. -/
def FailuresReported (out : ResourceResponse) (log : List Event) : Prop :=
  ∀ ev ∈ log, ∀ e, ev.err = some e →
    clientError ev.call.kind e ∈ out.Diagnostics ∧ issued ev.call.kind log = 1

/-! ## Diagnostics lemmas -/

theorem Diagnostics.Append_nil (diags : Diagnostics) : diags.Append [] = diags := rfl

theorem Diagnostics.mem_push_self (diags : Diagnostics) (d : Diagnostic) :
    d ∈ diags.push d := by
  unfold Diagnostics.push
  split <;> simp_all

theorem Diagnostics.mem_push_of_mem {diags : Diagnostics} {d : Diagnostic} (x : Diagnostic)
    (h : d ∈ diags) : d ∈ diags.push x := by
  unfold Diagnostics.push
  split <;> simp_all

theorem Diagnostics.mem_AddError_self (diags : Diagnostics) (summary detail : String) :
    (⟨Severity.Error, summary, detail⟩ : Diagnostic) ∈ diags.AddError summary detail := by
  simp [Diagnostics.AddError, Diagnostics.Append, Diagnostics.mem_push_self]

theorem Diagnostics.mem_AddError_of_mem {diags : Diagnostics} {d : Diagnostic}
    (summary detail : String) (h : d ∈ diags) : d ∈ diags.AddError summary detail := by
  simp [Diagnostics.AddError, Diagnostics.Append, Diagnostics.mem_push_of_mem _ h]

theorem Diagnostics.HasError_iff (diags : Diagnostics) :
    diags.HasError = true ↔ ∃ d ∈ diags, d.severity = Severity.Error := by
  simp [Diagnostics.HasError]

theorem Diagnostics.HasError_AddError (diags : Diagnostics) (summary detail : String) :
    (diags.AddError summary detail).HasError = true := by
  rw [Diagnostics.HasError_iff]
  exact ⟨_, Diagnostics.mem_AddError_self diags summary detail, rfl⟩

theorem Diagnostics.not_mem_of_HasError_false {diags : Diagnostics}
    (h : diags.HasError = false) (summary detail : String) :
    (⟨Severity.Error, summary, detail⟩ : Diagnostic) ∉ diags := by
  intro hmem
  have : diags.HasError = true := (Diagnostics.HasError_iff diags).2 ⟨_, hmem, rfl⟩
  simp [h] at this

/-! ## The log does not change a run -/

/-- Logging leaves the response and the remote state of a Create run as they are. -/
theorem traced_Create {σ : Type} (c : ServersService σ) (req : CreateResourceRequest)
    (resp : CreateResourceResponse) (w : σ) (log : List Event) :
    ((mailosaurServerResource.Create (traced c) req resp (w, log)).1,
      (mailosaurServerResource.Create (traced c) req resp (w, log)).2.1) =
        mailosaurServerResource.Create c req resp w := by
  rcases hc : c.Create { Name := req.Config.value.Name.Value } w with ⟨⟨server, cerr⟩, w1⟩
  rcases hp : c.GetPassword server.Id w1 with ⟨⟨pw, perr⟩, w2⟩
  cases hd : (resp.Diagnostics.Append req.Config.diags).HasError <;> cases cerr <;>
    cases perr <;>
    simp [mailosaurServerResource.Create, traced, Source.Get, hd, hc, hp]

/-- Logging leaves the response and the remote state of a Read run as they are. -/
theorem traced_Read {σ : Type} (c : ServersService σ) (req : ReadResourceRequest)
    (resp : ReadResourceResponse) (w : σ) (log : List Event) :
    ((mailosaurServerResource.Read (traced c) req resp (w, log)).1,
      (mailosaurServerResource.Read (traced c) req resp (w, log)).2.1) =
        mailosaurServerResource.Read c req resp w := by
  rcases hg : c.Get req.State.value.Id.Value w with ⟨⟨server, gerr⟩, w1⟩
  rcases hp : c.GetPassword server.Id w1 with ⟨⟨pw, perr⟩, w2⟩
  cases hd : (resp.Diagnostics.Append req.State.diags).HasError <;> cases gerr <;>
    cases perr <;> cases hpn : req.State.value.Password.Null <;>
    cases hen : req.State.value.Email.Null <;>
    simp [mailosaurServerResource.Read, traced, Source.Get, hd, hg, hp, hpn, hen]

/-- Logging leaves the response and the remote state of an Update run as they are. -/
theorem traced_Update {σ : Type} (c : ServersService σ) (req : UpdateResourceRequest)
    (resp : UpdateResourceResponse) (w : σ) (log : List Event) :
    ((mailosaurServerResource.Update (traced c) req resp (w, log)).1,
      (mailosaurServerResource.Update (traced c) req resp (w, log)).2.1) =
        mailosaurServerResource.Update c req resp w := by
  rcases hg : c.Get req.Plan.value.Id.Value w with ⟨⟨retrieved, gerr⟩, w1⟩
  rcases hu : c.Update retrieved.Id { retrieved with Name := req.Plan.value.Name.Value } w1
    with ⟨⟨updated, uerr⟩, w2⟩
  rcases hp : c.GetPassword retrieved.Id w2 with ⟨⟨pw, perr⟩, w3⟩
  cases hd : (resp.Diagnostics.Append req.Plan.diags).HasError <;> cases gerr <;>
    cases uerr <;> cases perr <;> cases hpn : req.Plan.value.Password.Null <;>
    cases hen : req.Plan.value.Email.Null <;>
    simp [mailosaurServerResource.Update, traced, Source.Get, hd, hg, hu, hp, hpn, hen]

/-- Logging leaves the response and the remote state of a Delete run as they are. -/
theorem traced_Delete {σ : Type} (c : ServersService σ) (req : DeleteResourceRequest)
    (resp : DeleteResourceResponse) (w : σ) (log : List Event) :
    ((mailosaurServerResource.Delete (traced c) req resp (w, log)).1,
      (mailosaurServerResource.Delete (traced c) req resp (w, log)).2.1) =
        mailosaurServerResource.Delete c req resp w := by
  rcases hx : c.Delete req.State.value.Id.Value w with ⟨derr, w1⟩
  cases hd : (resp.Diagnostics.Append req.State.diags).HasError <;> cases derr <;>
    simp [mailosaurServerResource.Delete, traced, Source.Get, hd, hx]

/-! ## Create -/

/-- C1 (amended): when create-server, get-password and generate-email-address all
succeed, Create adds no diagnostic, reports no error, and writes a state whose
name is the name of the server create-server returned (the configured name when
the service returns it unchanged), whose id is that server's id, whose password
and email are the values get-password and generate-email-address returned for
that id; all four are set (neither null nor unknown), and id, password and email
are non-empty exactly when the returned values are. -/
theorem Create_success_writes_remote_values {σ : Type} (c : ServersService σ)
    (req : CreateResourceRequest) (resp : CreateResourceResponse) (w w1 w2 w3 : σ)
    (server : Server) (password email : String)
    (hdec : (resp.Diagnostics.Append req.Config.diags).HasError = false)
    (hcreate : c.Create { Name := req.Config.value.Name.Value } w = ((server, none), w1))
    (hpw : c.GetPassword server.Id w1 = ((password, none), w2))
    (hem : c.GenerateEmailAddress server.Id w2 = (email, w3)) :
    mailosaurServerResource.Create c req resp w =
      (⟨⟨some
          { Name := { Unknown := false, Null := false, Value := server.Name },
            Id := { Unknown := false, Null := false, Value := server.Id },
            Password := { Unknown := false, Null := false, Value := password },
            Email := { Unknown := false, Null := false, Value := email } }⟩,
        resp.Diagnostics.Append req.Config.diags⟩, w3) ∧
    (mailosaurServerResource.Create c req resp w).1.Diagnostics.HasError = false ∧
    (server.Name = req.Config.value.Name.Value →
      ((mailosaurServerResource.Create c req resp w).1.State.Raw.map
        (fun st => st.Name.Value)) = some req.Config.value.Name.Value) := by
  have h : mailosaurServerResource.Create c req resp w =
      (⟨⟨some
          { Name := { Unknown := false, Null := false, Value := server.Name },
            Id := { Unknown := false, Null := false, Value := server.Id },
            Password := { Unknown := false, Null := false, Value := password },
            Email := { Unknown := false, Null := false, Value := email } }⟩,
        resp.Diagnostics.Append req.Config.diags⟩, w3) := by
    simp [mailosaurServerResource.Create, Source.Get, hdec, hcreate, hpw, hem, State.Set,
      Diagnostics.Append_nil]
  refine ⟨h, ?_, ?_⟩
  · rw [h]; exact hdec
  · intro hname
    rw [h]; simp [hname]

/-- Witness for C1 (amended): the store service creating the server `one`. -/
theorem Create_success_writes_remote_values_witness :
    mailosaurServerResource.Create storeService createOne {} {} =
      (⟨⟨some stateOne⟩, []⟩, storeOne) :=
  (Create_success_writes_remote_values storeService createOne {} {} storeOne storeOne storeOne
    { Id := "srv0", Name := "one" } "pw-srv0" "anything@srv0.mailosaur.net"
    (by decide) (by decide) (by decide) (by decide)).1

/-- C1 (counterexample): with the configured name `"one "` and a service that
trims names and has no password set, all three calls succeed and Create reports
no error, yet the written name is `"one"`, not the configured name, and the
written password is empty. -/
theorem Create_name_not_configured_name :
    (trimmingService.Create { Name := "one " } {}).1.2 = none ∧
    (trimmingService.GetPassword "srv0" storeOne).1.2 = none ∧
    (mailosaurServerResource.Create trimmingService createOneBlank {} {}).1 =
      ⟨⟨some { Name := { Value := "one" }, Id := { Value := "srv0" },
               Password := { Value := "" },
               Email := { Value := "anything@srv0.mailosaur.net" } }⟩, []⟩ ∧
    createOneBlank.Config.value.Name.Value = "one " ∧ "one" ≠ "one " := by
  decide

/-! ## Update -/

/-- C2: for a plan whose password and email are set and whose name is `m`, when
get-server and update-server succeed, Update adds no diagnostic and writes
exactly the plan: id, password and email are those of the plan and the name is
`m`; the only remote calls are get-server and update-server, so no get-password
and no generate-email-address call is issued. -/
theorem Update_preserves_computed {σ : Type} (c : ServersService σ)
    (req : UpdateResourceRequest) (resp : UpdateResourceResponse) (w w1 w2 : σ)
    (retrieved updated : Server)
    (hdec : (resp.Diagnostics.Append req.Plan.diags).HasError = false)
    (hpassword : req.Plan.value.Password.Null = false)
    (hemail : req.Plan.value.Email.Null = false)
    (hget : c.Get req.Plan.value.Id.Value w = ((retrieved, none), w1))
    (hupdate : c.Update retrieved.Id { retrieved with Name := req.Plan.value.Name.Value } w1 =
      ((updated, none), w2)) :
    mailosaurServerResource.Update (traced c) req resp (w, []) =
      (⟨⟨some req.Plan.value⟩, resp.Diagnostics.Append req.Plan.diags⟩,
        (w2, [⟨Call.GetServer req.Plan.value.Id.Value, none⟩,
              ⟨Call.UpdateServer retrieved.Id
                { retrieved with Name := req.Plan.value.Name.Value }, none⟩])) ∧
    issued CallKind.GetPassword
      (mailosaurServerResource.Update (traced c) req resp (w, [])).2.2 = 0 ∧
    issued CallKind.GenerateEmailAddress
      (mailosaurServerResource.Update (traced c) req resp (w, [])).2.2 = 0 := by
  have h : mailosaurServerResource.Update (traced c) req resp (w, []) =
      (⟨⟨some req.Plan.value⟩, resp.Diagnostics.Append req.Plan.diags⟩,
        (w2, [⟨Call.GetServer req.Plan.value.Id.Value, none⟩,
              ⟨Call.UpdateServer retrieved.Id
                { retrieved with Name := req.Plan.value.Name.Value }, none⟩])) := by
    simp [mailosaurServerResource.Update, traced, Source.Get, hdec, hget, hupdate, hpassword,
      hemail, State.Set, Diagnostics.Append_nil]
  refine ⟨h, ?_, ?_⟩ <;> rw [h] <;> simp [issued, Call.kind]

/-- Witness for C2: renaming the first server of the store to `two`. -/
theorem Update_preserves_computed_witness :
    mailosaurServerResource.Update (traced storeService) updateTwo {} (storeOne, []) =
      (⟨⟨some { stateOne with Name := { Value := "two" } }⟩, []⟩,
        ({ entries := [({ Id := "srv0", Name := "two" }, "pw-srv0")], fresh := 1 },
          [⟨Call.GetServer "srv0", none⟩,
           ⟨Call.UpdateServer "srv0" { Id := "srv0", Name := "two" }, none⟩])) :=
  (Update_preserves_computed storeService updateTwo {} storeOne storeOne
    { entries := [({ Id := "srv0", Name := "two" }, "pw-srv0")], fresh := 1 }
    { Id := "srv0", Name := "one" } { Id := "srv0", Name := "two" }
    (by decide) (by decide) (by decide) (by decide) (by decide)).1

/-! ## Read -/

/-- C3: when get-server succeeds, Read issues exactly one get-password call if
the prior password is null and none otherwise, and exactly one
generate-email-address call if the prior email is null and none otherwise; each
count depends on its own flag only. -/
theorem Read_backfill_counts {σ : Type} (c : ServersService σ)
    (req : ReadResourceRequest) (resp : ReadResourceResponse) (w w1 : σ) (server : Server)
    (hdec : (resp.Diagnostics.Append req.State.diags).HasError = false)
    (hget : c.Get req.State.value.Id.Value w = ((server, none), w1)) :
    issued CallKind.GetPassword
      (mailosaurServerResource.Read (traced c) req resp (w, [])).2.2 =
        (if req.State.value.Password.Null then 1 else 0) ∧
    issued CallKind.GenerateEmailAddress
      (mailosaurServerResource.Read (traced c) req resp (w, [])).2.2 =
        (if req.State.value.Email.Null then 1 else 0) ∧
    issued CallKind.GetServer
      (mailosaurServerResource.Read (traced c) req resp (w, [])).2.2 = 1 := by
  cases hp : req.State.value.Password.Null <;> cases he : req.State.value.Email.Null <;>
    simp [mailosaurServerResource.Read, traced, Source.Get, hdec, hget, hp, he, State.Set,
      Diagnostics.Append_nil, issued, Call.kind, List.countP_cons]

/-- Witness for C3: reading an imported server backfills both attributes. -/
theorem Read_backfill_counts_witness :
    issued CallKind.GetPassword
      (mailosaurServerResource.Read (traced storeService) (readOf importedOne) {}
        (storeOne, [])).2.2 = 1 ∧
    issued CallKind.GenerateEmailAddress
      (mailosaurServerResource.Read (traced storeService) (readOf importedOne) {}
        (storeOne, [])).2.2 = 1 ∧
    issued CallKind.GetServer
      (mailosaurServerResource.Read (traced storeService) (readOf importedOne) {}
        (storeOne, [])).2.2 = 1 :=
  Read_backfill_counts storeService (readOf importedOne) {} storeOne storeOne
    { Id := "srv0", Name := "one" } (by decide) (by decide)

/-- C5: when get-server succeeds, Read writes a state whose name is the remote
server's name, whose id is the prior id whatever id the remote object carries,
and whose password and email are the prior ones when those were not null; when
get-server fails with `e`, Read reports the error, issues no further remote
call, and leaves the response state as it was. -/
theorem Read_refreshes_name_keeps_id {σ : Type} (c : ServersService σ)
    (req : ReadResourceRequest) (resp : ReadResourceResponse) (w w1 : σ) (server : Server)
    (err : Option String)
    (hdec : (resp.Diagnostics.Append req.State.diags).HasError = false)
    (hget : c.Get req.State.value.Id.Value w = ((server, err), w1)) :
    (err = none →
      ∃ st, (mailosaurServerResource.Read (traced c) req resp (w, [])).1.State.Raw = some st ∧
        st.Name = { Unknown := false, Null := false, Value := server.Name } ∧
        st.Id = req.State.value.Id ∧
        (req.State.value.Password.Null = false → st.Password = req.State.value.Password) ∧
        (req.State.value.Email.Null = false → st.Email = req.State.value.Email)) ∧
    (∀ e, err = some e →
      mailosaurServerResource.Read (traced c) req resp (w, []) =
        (⟨resp.State, (resp.Diagnostics.Append req.State.diags).AddError "Client Error"
            ("Unable to read server, got error: " ++ e)⟩,
          (w1, [⟨Call.GetServer req.State.value.Id.Value, some e⟩])) ∧
      (mailosaurServerResource.Read (traced c) req resp (w, [])).1.Diagnostics.HasError = true ∧
      clientError CallKind.GetServer e ∈
        (mailosaurServerResource.Read (traced c) req resp (w, [])).1.Diagnostics) := by
  constructor
  · intro herr
    subst herr
    cases hp : req.State.value.Password.Null <;> cases he : req.State.value.Email.Null <;>
      simp [mailosaurServerResource.Read, traced, Source.Get, hdec, hget, hp, he, State.Set,
        Diagnostics.Append_nil]
  · intro e herr
    subst herr
    have h : mailosaurServerResource.Read (traced c) req resp (w, []) =
        (⟨resp.State, (resp.Diagnostics.Append req.State.diags).AddError "Client Error"
            ("Unable to read server, got error: " ++ e)⟩,
          (w1, [⟨Call.GetServer req.State.value.Id.Value, some e⟩])) := by
      simp [mailosaurServerResource.Read, traced, Source.Get, hdec, hget]
    refine ⟨h, ?_, ?_⟩
    · rw [h]; exact Diagnostics.HasError_AddError _ _ _
    · rw [h]; exact Diagnostics.mem_AddError_self _ _ _

/-- Witness for C5: reading the first server after it was renamed remotely
refreshes the name only; reading it from an empty store fails. -/
theorem Read_refreshes_name_keeps_id_witness :
    (∃ st, (mailosaurServerResource.Read (traced storeService) (readOf stateOne) {}
        ({ entries := [({ Id := "srv0", Name := "renamed" }, "pw-srv0")], fresh := 1 },
          [])).1.State.Raw = some st ∧
      st.Name = { Unknown := false, Null := false, Value := "renamed" } ∧
      st.Id = stateOne.Id ∧
      (stateOne.Password.Null = false → st.Password = stateOne.Password) ∧
      (stateOne.Email.Null = false → st.Email = stateOne.Email)) ∧
    mailosaurServerResource.Read (traced storeService) (readOf stateOne) {} ({}, []) =
      (⟨{}, [clientError CallKind.GetServer "Server not found"]⟩,
        ({}, [⟨Call.GetServer "srv0", some "Server not found"⟩])) :=
  ⟨(Read_refreshes_name_keeps_id storeService (readOf stateOne) {}
      { entries := [({ Id := "srv0", Name := "renamed" }, "pw-srv0")], fresh := 1 }
      { entries := [({ Id := "srv0", Name := "renamed" }, "pw-srv0")], fresh := 1 }
      { Id := "srv0", Name := "renamed" } none (by decide) (by decide)).1 rfl,
   ((Read_refreshes_name_keeps_id storeService (readOf stateOne) {} {} {} {}
      (some "Server not found") (by decide) (by decide)).2 "Server not found" rfl).1⟩

/-! ## Configure -/

/-- C4: when the configuration decodes, Configure builds the client from the
`api_key` attribute if that attribute is not null and from the environment
variable `MAILOSAUR_API_KEY` otherwise, and it reports an error (the missing-key
diagnostic) exactly when that key is empty; in particular it reports an error
when the attribute is null and the variable is unset or empty. -/
theorem Configure_resolves_api_key {κ : Type} (New : String → κ) (env : Environ)
    (p : provider κ) (req : ConfigureProviderRequest) (resp : ConfigureProviderResponse)
    (apiKey : String)
    (hdec : (resp.Diagnostics.Append req.Config.diags).HasError = false)
    (hkey : apiKey = if req.Config.value.ApiKey.Null then Getenv env "MAILOSAUR_API_KEY"
      else req.Config.value.ApiKey.Value) :
    (provider.Configure New env p req resp).1.client = some (New apiKey) ∧
    ((provider.Configure New env p req resp).2.Diagnostics.HasError = true ↔ apiKey = "") ∧
    (missingApiKey ∈ (provider.Configure New env p req resp).2.Diagnostics ↔ apiKey = "") ∧
    (req.Config.value.ApiKey.Null = true →
      (env "MAILOSAUR_API_KEY" = none ∨ env "MAILOSAUR_API_KEY" = some "") →
      (provider.Configure New env p req resp).2.Diagnostics.HasError = true) := by
  have hnot := Diagnostics.not_mem_of_HasError_false hdec "Unable to find MAILOSAUR_API_KEY"
    "Api Key cannot be an empty string"
  have hclient : (provider.Configure New env p req resp).1.client = some (New apiKey) := by
    simp [provider.Configure, Source.Get, hdec, hkey]
  have herr : (provider.Configure New env p req resp).2.Diagnostics.HasError = true ↔
      apiKey = "" := by
    by_cases hk : apiKey = ""
    · have hk2 := hk
      rw [hkey] at hk2
      simp [provider.Configure, Source.Get, hdec, hk, hk2, Diagnostics.HasError_AddError]
    · have hk2 := hk
      rw [hkey] at hk2
      simp [provider.Configure, Source.Get, hdec, hk, hk2]
  have hmem : missingApiKey ∈ (provider.Configure New env p req resp).2.Diagnostics ↔
      apiKey = "" := by
    by_cases hk : apiKey = ""
    · have hk2 := hk
      rw [hkey] at hk2
      simp [provider.Configure, Source.Get, hdec, hk, hk2, missingApiKey,
        Diagnostics.mem_AddError_self]
    · have hk2 := hk
      rw [hkey] at hk2
      simp [provider.Configure, Source.Get, hdec, hk, hk2, missingApiKey, hnot]
  refine ⟨hclient, herr, hmem, ?_⟩
  intro hnull henv
  rw [herr, hkey, hnull]
  rcases henv with h | h <;> simp [Getenv, h]

/-- Witness for C4: no attribute and an empty environment. -/
theorem Configure_resolves_api_key_witness :
    (provider.Configure (fun k => k) emptyEnviron {} configNoKey {}).1.client = some "" ∧
    (provider.Configure (fun k => k) emptyEnviron {} configNoKey {}).2.Diagnostics =
      [missingApiKey] ∧
    ((provider.Configure (fun k => k) emptyEnviron {} configNoKey {}).2.Diagnostics.HasError
      = true ↔ "" = "") :=
  ⟨(Configure_resolves_api_key (fun k => k) emptyEnviron {} configNoKey {} ""
      (by decide) (by decide)).1, by decide,
   (Configure_resolves_api_key (fun k => k) emptyEnviron {} configNoKey {} ""
      (by decide) (by decide)).2.1⟩

/-- C10: whenever the configuration decodes without error, also when the
resolved key is empty and the missing-key error is reported, Configure stores a
client built from the resolved key and sets `configured`; when decoding reports
an error, the provider is returned unchanged. -/
theorem Configure_marks_configured {κ : Type} (New : String → κ) (env : Environ)
    (p : provider κ) (req : ConfigureProviderRequest) (resp : ConfigureProviderResponse)
    (apiKey : String)
    (hkey : apiKey = if req.Config.value.ApiKey.Null then Getenv env "MAILOSAUR_API_KEY"
      else req.Config.value.ApiKey.Value) :
    ((resp.Diagnostics.Append req.Config.diags).HasError = false →
      (provider.Configure New env p req resp).1 =
        { client := some (New apiKey), configured := true, version := p.version } ∧
      (apiKey = "" →
        (provider.Configure New env p req resp).2.Diagnostics.HasError = true)) ∧
    ((resp.Diagnostics.Append req.Config.diags).HasError = true →
      provider.Configure New env p req resp =
        (p, ⟨resp.Diagnostics.Append req.Config.diags⟩)) := by
  constructor
  · intro hdec
    constructor
    · simp [provider.Configure, Source.Get, hdec, hkey]
    · intro hk
      have hk2 := hk
      rw [hkey] at hk2
      simp [provider.Configure, Source.Get, hdec, hk2, Diagnostics.HasError_AddError]
  · intro hdec
    simp [provider.Configure, Source.Get, hdec]

/-- Witness for C10: with no key anywhere the provider is still marked as
configured, with a client built from the empty key; with an undecodable
configuration it is left as it was. -/
theorem Configure_marks_configured_witness :
    ((provider.Configure (fun k => k) emptyEnviron {} configNoKey {}).1 =
        { client := some "", configured := true, version := "" } ∧
      (provider.Configure (fun k => k) emptyEnviron {} configNoKey {}).2.Diagnostics.HasError
        = true) ∧
    provider.Configure (fun k => k) emptyEnviron {} configUndecodable {} =
      (({} : provider String), ⟨[⟨Severity.Error, "Value Conversion Error", ""⟩]⟩) :=
  ⟨⟨((Configure_marks_configured (fun k => k) emptyEnviron {} configNoKey {} ""
        (by decide)).1 (by decide)).1,
    ((Configure_marks_configured (fun k => k) emptyEnviron {} configNoKey {} ""
        (by decide)).1 (by decide)).2 rfl⟩,
   (Configure_marks_configured (fun k => k) emptyEnviron {} configUndecodable {} ""
      (by decide)).2 (by decide)⟩

/-! ## Delete -/

/-- After a successful delete the store holds no entry at the id. -/
theorem Store.lookup_filter_ne (st : Store) (id : String) :
    Store.lookup { st with entries := st.entries.filter (fun e => !(e.1.Id == id)) } id
      = none := by
  simp [Store.lookup, List.find?_eq_none]

/-- C8: for a prior state with id `i`, Delete issues exactly one remote call,
delete-server with argument `i`, and reports an error exactly when that call
fails; over the store model of the service, after a Delete that reports no error
get-server for `i` fails. -/
theorem Delete_single_call {σ : Type} (c : ServersService σ)
    (req : DeleteResourceRequest) (resp : DeleteResourceResponse) (w w1 : σ)
    (err : Option String)
    (hdec : (resp.Diagnostics.Append req.State.diags).HasError = false)
    (hdelete : c.Delete req.State.value.Id.Value w = (err, w1)) :
    (mailosaurServerResource.Delete (traced c) req resp (w, [])).2 =
      (w1, [⟨Call.DeleteServer req.State.value.Id.Value, err⟩]) ∧
    ((mailosaurServerResource.Delete (traced c) req resp (w, [])).1.Diagnostics.HasError = true
      ↔ err ≠ none) ∧
    (∀ st : Store,
      (mailosaurServerResource.Delete storeService req resp st).1.Diagnostics.HasError = false →
      ∃ e, (storeService.Get req.State.value.Id.Value
        (mailosaurServerResource.Delete storeService req resp st).2).1.2 = some e) := by
  refine ⟨?_, ?_, ?_⟩
  · cases err <;>
      simp [mailosaurServerResource.Delete, traced, Source.Get, hdec, hdelete]
  · cases err <;>
      simp [mailosaurServerResource.Delete, traced, Source.Get, hdec, hdelete,
        Diagnostics.HasError_AddError]
  · intro st hok
    cases hl : st.lookup req.State.value.Id.Value with
    | none =>
      simp [mailosaurServerResource.Delete, storeService, Source.Get, hdec, hl,
        Diagnostics.HasError_AddError] at hok
    | some entry =>
      refine ⟨"Server not found", ?_⟩
      simp [mailosaurServerResource.Delete, storeService, Source.Get, hdec, hl,
        Store.lookup_filter_ne]

/-- Witness for C8: deleting the first server from the store. -/
theorem Delete_single_call_witness :
    mailosaurServerResource.Delete (traced storeService) (deleteOf stateOne) {} (storeOne, []) =
      (⟨{}, []⟩, ({ entries := [], fresh := 1 }, [⟨Call.DeleteServer "srv0", none⟩])) ∧
    (storeService.Get "srv0"
      (mailosaurServerResource.Delete storeService (deleteOf stateOne) {} storeOne).2).1.2 =
        some "Server not found" ∧
    (∃ e, (storeService.Get "srv0"
      (mailosaurServerResource.Delete storeService (deleteOf stateOne) {} storeOne).2).1.2 =
        some e) :=
  ⟨Prod.ext (by decide)
    (Delete_single_call storeService (deleteOf stateOne) {} storeOne
      { entries := [], fresh := 1 } none (by decide) (by decide)).1, by decide,
   (Delete_single_call storeService (deleteOf stateOne) {} storeOne
      { entries := [], fresh := 1 } none (by decide) (by decide)).2.2 storeOne (by decide)⟩

/-! ## Create: failures -/

/-- The details of a create-server failure and of a get-password failure differ,
whatever the underlying messages. -/
theorem failureDetail_create_ne_password (e e' : String) :
    failureDetail CallKind.CreateServer e ≠ failureDetail CallKind.GetPassword e' := by
  intro h
  have h2 := congrArg String.data h
  simp [failureDetail, String.data_append] at h2

/-- A store holds the server it has just created. -/
theorem Store.lookup_append_self (st : Store) (server : Server) (password : String) :
    ∃ entry, Store.lookup ⟨st.entries ++ [(server, password)], st.fresh + 1⟩ server.Id
      = some entry := by
  cases h : Store.lookup ⟨st.entries ++ [(server, password)], st.fresh + 1⟩ server.Id with
  | some entry => exact ⟨entry, rfl⟩
  | none =>
    simp [Store.lookup, List.find?_eq_none] at h

/-- C7: when create-server succeeds and get-password then fails with `e`, Create
reports the get-password error, and its only remote calls are create-server,
get-password and generate-email-address: no delete-server call is issued and the
remote state is the one those three calls left, so over the store model the
created server can still be fetched.  When create-server itself fails with `e`,
Create reports the create-server error, whose detail differs from that of any
get-password error, issues no other call, and leaves the response state as it
was. -/
theorem Create_no_compensation {σ : Type} (c : ServersService σ)
    (req : CreateResourceRequest) (resp : CreateResourceResponse) (w w1 : σ)
    (server : Server) (err : Option String)
    (hdec : (resp.Diagnostics.Append req.Config.diags).HasError = false)
    (hcreate : c.Create { Name := req.Config.value.Name.Value } w = ((server, err), w1)) :
    (err = none → ∀ (password e email : String) (w2 w3 : σ),
      c.GetPassword server.Id w1 = ((password, some e), w2) →
      c.GenerateEmailAddress server.Id w2 = (email, w3) →
      (mailosaurServerResource.Create (traced c) req resp (w, [])).2 =
        (w3, [⟨Call.CreateServer { Name := req.Config.value.Name.Value }, none⟩,
              ⟨Call.GetPassword server.Id, some e⟩,
              ⟨Call.GenerateEmailAddress server.Id, none⟩]) ∧
      issued CallKind.DeleteServer
        (mailosaurServerResource.Create (traced c) req resp (w, [])).2.2 = 0 ∧
      (mailosaurServerResource.Create (traced c) req resp (w, [])).1.Diagnostics =
        (resp.Diagnostics.Append req.Config.diags).AddError "Client Error"
          ("Unable to read password of server, got error: " ++ e) ∧
      (mailosaurServerResource.Create (traced c) req resp (w, [])).1.Diagnostics.HasError
        = true) ∧
    (∀ e, err = some e →
      mailosaurServerResource.Create (traced c) req resp (w, []) =
        (⟨resp.State, (resp.Diagnostics.Append req.Config.diags).AddError "Client Error"
            ("Unable to create server, got error: " ++ e)⟩,
          (w1, [⟨Call.CreateServer { Name := req.Config.value.Name.Value }, some e⟩])) ∧
      (mailosaurServerResource.Create (traced c) req resp (w, [])).1.Diagnostics.HasError
        = true ∧
      ∀ e', failureDetail CallKind.CreateServer e ≠ failureDetail CallKind.GetPassword e') ∧
    (∀ st : Store,
      (mailosaurServerResource.Create passwordOutage req resp st).1.Diagnostics.HasError
        = true ∧
      (storeService.Get ("srv" ++ toString st.fresh)
        (mailosaurServerResource.Create passwordOutage req resp st).2).1.2 = none) := by
  refine ⟨?_, ?_, ?_⟩
  · intro herr password e email w2 w3 hpw hem
    subst herr
    have h : mailosaurServerResource.Create (traced c) req resp (w, []) =
        (⟨⟨some
            { Name := { Unknown := false, Null := false, Value := server.Name },
              Id := { Unknown := false, Null := false, Value := server.Id },
              Password := { Unknown := false, Null := false, Value := password },
              Email := { Unknown := false, Null := false, Value := email } }⟩,
          (resp.Diagnostics.Append req.Config.diags).AddError "Client Error"
            ("Unable to read password of server, got error: " ++ e)⟩,
          (w3, [⟨Call.CreateServer { Name := req.Config.value.Name.Value }, none⟩,
                ⟨Call.GetPassword server.Id, some e⟩,
                ⟨Call.GenerateEmailAddress server.Id, none⟩])) := by
      simp [mailosaurServerResource.Create, traced, Source.Get, hdec, hcreate, hpw, hem,
        State.Set, Diagnostics.Append_nil]
    rw [h]
    refine ⟨rfl, ?_, rfl, Diagnostics.HasError_AddError _ _ _⟩
    simp [issued, Call.kind]
  · intro e herr
    subst herr
    have h : mailosaurServerResource.Create (traced c) req resp (w, []) =
        (⟨resp.State, (resp.Diagnostics.Append req.Config.diags).AddError "Client Error"
            ("Unable to create server, got error: " ++ e)⟩,
          (w1, [⟨Call.CreateServer { Name := req.Config.value.Name.Value }, some e⟩])) := by
      simp [mailosaurServerResource.Create, traced, Source.Get, hdec, hcreate]
    rw [h]
    exact ⟨rfl, Diagnostics.HasError_AddError _ _ _, failureDetail_create_ne_password e⟩
  · intro st
    obtain ⟨entry, hentry⟩ := Store.lookup_append_self st
      { Id := "srv" ++ toString st.fresh, Name := req.Config.value.Name.Value }
      ("pw-" ++ ("srv" ++ toString st.fresh))
    simp at hentry
    constructor
    · simp [mailosaurServerResource.Create, passwordOutage, storeService, Source.Get, hdec,
        State.Set, Diagnostics.Append_nil, Diagnostics.HasError_AddError]
    · simp [mailosaurServerResource.Create, passwordOutage, storeService, Source.Get, hdec,
        State.Set, Diagnostics.Append_nil, hentry]

/-- Witness for C7: a password outage after the server `one` was created, and a
rejected create-server request. -/
theorem Create_no_compensation_witness :
    ((mailosaurServerResource.Create (traced passwordOutage) createOne {} ({}, [])).2 =
        (storeOne, [⟨Call.CreateServer { Name := "one" }, none⟩,
          ⟨Call.GetPassword "srv0", some "503 Service Unavailable"⟩,
          ⟨Call.GenerateEmailAddress "srv0", none⟩]) ∧
      (mailosaurServerResource.Create (traced passwordOutage) createOne {} ({}, [])).1.Diagnostics
        = [clientError CallKind.GetPassword "503 Service Unavailable"]) ∧
    mailosaurServerResource.Create (traced rejectingService) createOne {} ({}, []) =
      (⟨{}, [clientError CallKind.CreateServer "401 Unauthorized"]⟩,
        ({}, [⟨Call.CreateServer { Name := "one" }, some "401 Unauthorized"⟩])) ∧
    (storeService.Get "srv0"
      (mailosaurServerResource.Create passwordOutage createOne {} {}).2).1.2 = none :=
  ⟨⟨((Create_no_compensation passwordOutage createOne {} {} storeOne
        { Id := "srv0", Name := "one" } none (by decide) (by decide)).1 rfl
        "" "503 Service Unavailable" "anything@srv0.mailosaur.net" storeOne storeOne
        (by decide) (by decide)).1,
     ((Create_no_compensation passwordOutage createOne {} {} storeOne
        { Id := "srv0", Name := "one" } none (by decide) (by decide)).1 rfl
        "" "503 Service Unavailable" "anything@srv0.mailosaur.net" storeOne storeOne
        (by decide) (by decide)).2.2.1⟩,
   ((Create_no_compensation rejectingService createOne {} {} {} {}
      (some "401 Unauthorized") (by decide) (by decide)).2.1 "401 Unauthorized" rfl).1,
   ((Create_no_compensation passwordOutage createOne {} {} storeOne
      { Id := "srv0", Name := "one" } none (by decide) (by decide)).2.2 {}).2⟩

/-- C9 (amended): when create-server succeeds and get-password fails, Create still
writes a state, and in it the password is set (neither null nor unknown) to the
string get-password returned together with its error, which is the empty string
when the client returns Go's zero value; a later Read of that state, against any
remote service, issues no get-password call, and a state it writes still carries
that password. -/
theorem Create_failed_password_is_set {σ : Type} (c : ServersService σ)
    (req : CreateResourceRequest) (resp : CreateResourceResponse) (w w1 w2 w3 : σ)
    (server : Server) (password e email : String)
    (hdec : (resp.Diagnostics.Append req.Config.diags).HasError = false)
    (hcreate : c.Create { Name := req.Config.value.Name.Value } w = ((server, none), w1))
    (hpw : c.GetPassword server.Id w1 = ((password, some e), w2))
    (hem : c.GenerateEmailAddress server.Id w2 = (email, w3)) :
    ∃ st, (mailosaurServerResource.Create (traced c) req resp (w, [])).1.State.Raw = some st ∧
      st.Password = { Unknown := false, Null := false, Value := password } ∧
      (password = "" → st.Password = { Unknown := false, Null := false, Value := "" }) ∧
      ∀ (c' : ServersService σ) (diags : Diagnostics) (resp' : ReadResourceResponse) (w' : σ),
        issued CallKind.GetPassword
          (mailosaurServerResource.Read (traced c') ⟨⟨st, diags⟩⟩ resp' (w', [])).2.2 = 0 ∧
        ((mailosaurServerResource.Read (traced c') ⟨⟨st, diags⟩⟩ resp' (w', [])).1.State
            = resp'.State ∨
          ∃ st', (mailosaurServerResource.Read (traced c') ⟨⟨st, diags⟩⟩ resp'
              (w', [])).1.State.Raw = some st' ∧
            st'.Password = { Unknown := false, Null := false, Value := password }) := by
  refine ⟨{ Name := { Unknown := false, Null := false, Value := server.Name },
            Id := { Unknown := false, Null := false, Value := server.Id },
            Password := { Unknown := false, Null := false, Value := password },
            Email := { Unknown := false, Null := false, Value := email } }, ?_, rfl, ?_, ?_⟩
  · simp [mailosaurServerResource.Create, traced, Source.Get, hdec, hcreate, hpw, hem,
      State.Set, Diagnostics.Append_nil]
  · intro hzero
    rw [hzero]
  · intro c' diags resp' w'
    rcases hg : c'.Get server.Id w' with ⟨⟨srv, gerr⟩, wg⟩
    cases hd : (resp'.Diagnostics.Append diags).HasError <;> cases gerr <;>
      simp [mailosaurServerResource.Read, traced, Source.Get, hd, hg, State.Set,
        Diagnostics.Append_nil, issued, Call.kind]

/-- Witness for C9 (amended): after a password outage during Create that returns
Go's zero value, the written state has an empty, non-null password, and reading
it back once the outage is over asks for no password. -/
theorem Create_failed_password_is_set_witness :
    (mailosaurServerResource.Create (traced passwordOutage) createOne {} ({}, [])).1.State.Raw =
      some { stateOne with Password := { Unknown := false, Null := false, Value := "" } } ∧
    mailosaurServerResource.Read (traced storeService)
        (readOf { stateOne with Password := { Value := "" } }) {} (storeOne, []) =
      (⟨⟨some { stateOne with Password := { Value := "" } }⟩, []⟩,
        (storeOne, [⟨Call.GetServer "srv0", none⟩])) ∧
    ∃ st, (mailosaurServerResource.Create (traced passwordOutage) createOne {}
        ({}, [])).1.State.Raw = some st ∧
      st.Password = { Unknown := false, Null := false, Value := "" } ∧
      ("" = "" → st.Password = { Unknown := false, Null := false, Value := "" }) ∧
      ∀ (c' : ServersService Store) (diags : Diagnostics) (resp' : ReadResourceResponse)
        (w' : Store),
        issued CallKind.GetPassword
          (mailosaurServerResource.Read (traced c') ⟨⟨st, diags⟩⟩ resp' (w', [])).2.2 = 0 ∧
        ((mailosaurServerResource.Read (traced c') ⟨⟨st, diags⟩⟩ resp' (w', [])).1.State
            = resp'.State ∨
          ∃ st', (mailosaurServerResource.Read (traced c') ⟨⟨st, diags⟩⟩ resp'
              (w', [])).1.State.Raw = some st' ∧
            st'.Password = { Unknown := false, Null := false, Value := "" }) :=
  ⟨by decide, by decide,
   Create_failed_password_is_set passwordOutage createOne {} {} storeOne storeOne storeOne
    { Id := "srv0", Name := "one" } "" "503 Service Unavailable" "anything@srv0.mailosaur.net"
    (by decide) (by decide) (by decide) (by decide)⟩

/-- C9 (counterexample): create-server succeeds and get-password fails, handing
back the text `Service Unavailable` with its error; Create reports the error and
writes a state whose password is set (not null) to that text, which is not the
empty string. -/
theorem Create_failed_password_not_empty :
    (passwordOutageWithBody.Create { Name := "one" } {}).1.2 = none ∧
    (passwordOutageWithBody.GetPassword "srv0" storeOne).1 =
      ("Service Unavailable", some "503 Service Unavailable") ∧
    mailosaurServerResource.Create (traced passwordOutageWithBody) createOne {} ({}, []) =
      (⟨⟨some { stateOne with
            Password := { Unknown := false, Null := false, Value := "Service Unavailable" } }⟩,
          [clientError CallKind.GetPassword "503 Service Unavailable"]⟩,
        (storeOne, [⟨Call.CreateServer { Name := "one" }, none⟩,
          ⟨Call.GetPassword "srv0", some "503 Service Unavailable"⟩,
          ⟨Call.GenerateEmailAddress "srv0", none⟩])) ∧
    "Service Unavailable" ≠ "" := by
  decide

/-! ## Remote failures become client errors -/

theorem Create_failures_reported {σ : Type} (c : ServersService σ)
    (req : CreateResourceRequest) (resp : CreateResourceResponse) (w : σ) :
    FailuresReported (mailosaurServerResource.Create (traced c) req resp (w, [])).1
      (mailosaurServerResource.Create (traced c) req resp (w, [])).2.2 := by
  rcases hc : c.Create { Name := req.Config.value.Name.Value } w with ⟨⟨server, cerr⟩, w1⟩
  rcases hp : c.GetPassword server.Id w1 with ⟨⟨pw, perr⟩, w2⟩
  cases hd : (resp.Diagnostics.Append req.Config.diags).HasError <;> cases cerr <;>
    cases perr <;>
    simp [FailuresReported, mailosaurServerResource.Create, traced, Source.Get, hd, hc, hp,
      State.Set, Diagnostics.Append_nil, issued, Call.kind, clientError, failureDetail,
      Diagnostics.mem_AddError_self]

theorem Read_failures_reported {σ : Type} (c : ServersService σ)
    (req : ReadResourceRequest) (resp : ReadResourceResponse) (w : σ) :
    FailuresReported (mailosaurServerResource.Read (traced c) req resp (w, [])).1
      (mailosaurServerResource.Read (traced c) req resp (w, [])).2.2 := by
  rcases hg : c.Get req.State.value.Id.Value w with ⟨⟨server, gerr⟩, w1⟩
  rcases hp : c.GetPassword server.Id w1 with ⟨⟨pw, perr⟩, w2⟩
  cases hd : (resp.Diagnostics.Append req.State.diags).HasError <;> cases gerr <;>
    cases perr <;> cases hpn : req.State.value.Password.Null <;>
    cases hen : req.State.value.Email.Null <;>
    simp [FailuresReported, mailosaurServerResource.Read, traced, Source.Get, hd, hg, hp, hpn,
      hen, State.Set, Diagnostics.Append_nil, issued, Call.kind, clientError, failureDetail,
      Diagnostics.mem_AddError_self]

theorem Update_failures_reported {σ : Type} (c : ServersService σ)
    (req : UpdateResourceRequest) (resp : UpdateResourceResponse) (w : σ) :
    FailuresReported (mailosaurServerResource.Update (traced c) req resp (w, [])).1
      (mailosaurServerResource.Update (traced c) req resp (w, [])).2.2 := by
  rcases hg : c.Get req.Plan.value.Id.Value w with ⟨⟨retrieved, gerr⟩, w1⟩
  rcases hu : c.Update retrieved.Id { retrieved with Name := req.Plan.value.Name.Value } w1
    with ⟨⟨updated, uerr⟩, w2⟩
  rcases hp : c.GetPassword retrieved.Id w2 with ⟨⟨pw, perr⟩, w3⟩
  cases hd : (resp.Diagnostics.Append req.Plan.diags).HasError <;> cases gerr <;>
    cases uerr <;> cases perr <;> cases hpn : req.Plan.value.Password.Null <;>
    cases hen : req.Plan.value.Email.Null <;>
    simp [FailuresReported, mailosaurServerResource.Update, traced, Source.Get, hd, hg, hu, hp,
      hpn, hen, State.Set, Diagnostics.Append_nil, issued, Call.kind, clientError,
      failureDetail, Diagnostics.mem_AddError_self]

theorem Delete_failures_reported {σ : Type} (c : ServersService σ)
    (req : DeleteResourceRequest) (resp : DeleteResourceResponse) (w : σ) :
    FailuresReported (mailosaurServerResource.Delete (traced c) req resp (w, [])).1
      (mailosaurServerResource.Delete (traced c) req resp (w, [])).2.2 := by
  rcases hx : c.Delete req.State.value.Id.Value w with ⟨derr, w1⟩
  cases hd : (resp.Diagnostics.Append req.State.diags).HasError <;> cases derr <;>
    simp [FailuresReported, mailosaurServerResource.Delete, traced, Source.Get, hd, hx,
      issued, Call.kind, clientError, failureDetail, Diagnostics.mem_AddError_self]

/-- C6: in a run of Create, Read, Update or Delete, each remote call that fails
with a message `e` (create-server, get-server, update-server, delete-server or
get-password) leaves among the diagnostics an error with summary `Client Error`
whose detail is the text for that call (`Unable to create server`,
`Unable to read server`, `Unable to update server`, `Unable to delete example`,
`Unable to read password of server`) followed by `, got error: ` and `e`; and a
call of that kind is issued exactly once in the run, so nothing is retried. -/
theorem remote_failures_are_client_errors {σ : Type} (c : ServersService σ) (w : σ)
    (resp : ResourceResponse) (create : CreateResourceRequest) (read : ReadResourceRequest)
    (update : UpdateResourceRequest) (delete : DeleteResourceRequest) :
    (∀ ev ∈ (mailosaurServerResource.Create (traced c) create resp (w, [])).2.2,
      ∀ e, ev.err = some e →
        (⟨Severity.Error, "Client Error", failureDetail ev.call.kind e⟩ : Diagnostic) ∈
          (mailosaurServerResource.Create (traced c) create resp (w, [])).1.Diagnostics ∧
        issued ev.call.kind
          (mailosaurServerResource.Create (traced c) create resp (w, [])).2.2 = 1) ∧
    (∀ ev ∈ (mailosaurServerResource.Read (traced c) read resp (w, [])).2.2,
      ∀ e, ev.err = some e →
        (⟨Severity.Error, "Client Error", failureDetail ev.call.kind e⟩ : Diagnostic) ∈
          (mailosaurServerResource.Read (traced c) read resp (w, [])).1.Diagnostics ∧
        issued ev.call.kind
          (mailosaurServerResource.Read (traced c) read resp (w, [])).2.2 = 1) ∧
    (∀ ev ∈ (mailosaurServerResource.Update (traced c) update resp (w, [])).2.2,
      ∀ e, ev.err = some e →
        (⟨Severity.Error, "Client Error", failureDetail ev.call.kind e⟩ : Diagnostic) ∈
          (mailosaurServerResource.Update (traced c) update resp (w, [])).1.Diagnostics ∧
        issued ev.call.kind
          (mailosaurServerResource.Update (traced c) update resp (w, [])).2.2 = 1) ∧
    (∀ ev ∈ (mailosaurServerResource.Delete (traced c) delete resp (w, [])).2.2,
      ∀ e, ev.err = some e →
        (⟨Severity.Error, "Client Error", failureDetail ev.call.kind e⟩ : Diagnostic) ∈
          (mailosaurServerResource.Delete (traced c) delete resp (w, [])).1.Diagnostics ∧
        issued ev.call.kind
          (mailosaurServerResource.Delete (traced c) delete resp (w, [])).2.2 = 1) :=
  ⟨Create_failures_reported c create resp w, Read_failures_reported c read resp w,
   Update_failures_reported c update resp w, Delete_failures_reported c delete resp w⟩

/-- Witness for C6: deleting a server that the store does not hold. -/
theorem remote_failures_are_client_errors_witness :
    (⟨Severity.Error, "Client Error", "Unable to delete example, got error: Server not found"⟩
        : Diagnostic) ∈
      (mailosaurServerResource.Delete (traced storeService) (deleteOf stateOne) {}
        ({}, [])).1.Diagnostics ∧
    issued CallKind.DeleteServer
      (mailosaurServerResource.Delete (traced storeService) (deleteOf stateOne) {}
        ({}, [])).2.2 = 1 :=
  (remote_failures_are_client_errors storeService {} {} createOne (readOf stateOne) updateTwo
    (deleteOf stateOne)).2.2.2 ⟨Call.DeleteServer "srv0", some "Server not found"⟩
    (by decide) "Server not found" rfl

end Mailosaur

